import Mathlib

/-!
# AirCommand — verification of the command-dispatch / audio / config core

Shallow embedding of the AirCommand dashboard core (`App.tsx`, i.e.
`src/unnamed/part_001`): device registry, command dispatcher
(`handleScriptExecution`), activity log (`addLog`), device-config parsing
(`parseConfig`), the inbound audio scheduling of the live-session
`onmessage` callback, and the `targetDevices || ['all']` tool-call glue.

Non-deterministic environment inputs of the source (the `Math.random()`
seed used for screenshot references and battery levels, `Date` timestamps,
random log-entry ids) are modelled as explicit oracle parameters or, where
no claim observes them (log ids/timestamps), omitted from the record.
-/

/-- Lifecycle status of a device: `'connected' | 'busy' | 'offline'`
(from the `IOSDevice` type used throughout `App.tsx`). -/
inductive DeviceStatus where
  | connected
  | busy
  | offline
deriving DecidableEq, Repr, Inhabited

/-- Device record (`IOSDevice` of `./types`, as constructed and mutated by
`App.tsx`): identifier, display name, hardware model, OS version, network
address, status, battery level, optional foreground app, optional last
screenshot reference. -/
structure IOSDevice where
  id : String
  name : String
  model : String
  osVersion : String
  ip : String
  status : DeviceStatus
  batteryLevel : Nat
  currentApp : Option String
  lastScreenshot : Option String
deriving DecidableEq, Repr, Inhabited

/-- Log-entry source: `'User' | 'AI' | 'System'`. -/
inductive LogSource where
  | user
  | ai
  | system
deriving DecidableEq, Repr, Inhabited

/-- Log-entry severity/category: `'info' | 'success' | 'error' | 'command'`. -/
inductive LogType where
  | info
  | success
  | error
  | command
deriving DecidableEq, Repr, Inhabited

/-- Activity-log entry (`LogEntry`). The random `id` and the `Date`
timestamp the source attaches are environment-generated and observed by no
claim; they are not modelled. -/
structure LogEntry where
  source : LogSource
  message : String
  type : LogType
deriving DecidableEq, Repr, Inhabited

/-- The component state relevant to dispatch: the `devices` and `logs`
React state of `App`. -/
structure AppState where
  devices : List IOSDevice
  logs : List LogEntry
deriving DecidableEq, Repr, Inhabited

/-- The helper `addLog(source, message, type)`: `setLogs(prev => [...prev, entry])` —
appends one entry at the end of the log. -/
def addLog (st : AppState) (source : LogSource) (message : String)
    (type : LogType) : AppState :=
  { st with logs := st.logs ++ [{ source := source, message := message, type := type }] }

/-- The script actions. Constructors `url`, `launch`, `kill`, `home`,
`restart`, `screenshot`, `text` appear in the `switch` of
`handleScriptExecution`. Modelled from the spec: the remaining enum
members `install`, `uninstall`, `listApps`, `quit` (the `ScriptCommand`
enum lives in `./types`, which is not part of the available sources; the
spec's action table lists them as reserved actions with no modeled
effect). -/
inductive ScriptCommand where
  | url
  | launch
  | kill
  | home
  | restart
  | screenshot
  | text
  | install
  | uninstall
  | listApps
  | quit
deriving DecidableEq, Repr, Inhabited

/-- Modelled from the spec: the string value of each `ScriptCommand` enum
member (the enum's literal values live in the missing `./types`; the
spec's action table names them as below). Only interpolated into log/
result strings, never branched on. -/
def ScriptCommand.toName : ScriptCommand → String
  | .url => "open-url"
  | .launch => "launch-app"
  | .kill => "kill-app"
  | .home => "go-home"
  | .restart => "restart"
  | .screenshot => "screenshot"
  | .text => "send-text"
  | .install => "install"
  | .uninstall => "uninstall"
  | .listApps => "list-apps"
  | .quit => "quit"

/-- JavaScript `a || dflt` on an optional string: `undefined` and the
empty string (both falsy) select the default. -/
def jsOr (a : Option String) (dflt : String) : String :=
  match a with
  | none => dflt
  | some s => if s = "" then dflt else s

/-- Target resolution of `handleScriptExecution`:
`isAll = targetDevices.includes('all')`;
`targets = isAll ? devices.filter(d => d.status !== 'offline')
 : devices.filter(d => targetDevices.includes(d.id) && d.status !== 'offline')`. -/
def resolveTargets (devices : List IOSDevice) (targetDevices : List String) :
    List IOSDevice :=
  if targetDevices.contains "all" then
    devices.filter (fun d => d.status != DeviceStatus.offline)
  else
    devices.filter (fun d => targetDevices.contains d.id && d.status != DeviceStatus.offline)

/-- The check `targets.find(t => t.id === d.id)` as a Boolean: does some resolved
target share `d`'s identifier? -/
def isHit (targets : List IOSDevice) (d : IOSDevice) : Bool :=
  targets.any (fun t => t.id == d.id)

/-- First registry update of a dispatch (`setDevices` before the settle
delay): every device matched by a target's id moves to `busy`. -/
def busyPhase (targets : List IOSDevice) (devices : List IOSDevice) :
    List IOSDevice :=
  devices.map (fun d => if isHit targets d then { d with status := DeviceStatus.busy } else d)

/-- The per-device update of the second registry update: base update
`{status: 'connected'}`, then the `switch (action)` cases. `shotRef` is
the `https://picsum.photos/seed/${Math.random()}/360/640` reference the
source generates for this device (`Math.random()` modelled as an oracle).
`.text` has no field case in the switch (it only logs); `install`,
`uninstall`, `listApps`, `quit` have no case at all, so only the base
update applies. -/
def applyUpdate (action : ScriptCommand) (argument : Option String)
    (shotRef : String) (d : IOSDevice) : IOSDevice :=
  match action with
  | .url => { d with status := DeviceStatus.connected, currentApp := some "Safari" }
  | .launch => { d with status := DeviceStatus.connected, currentApp := some (jsOr argument "App") }
  | .kill => { d with status := DeviceStatus.connected, currentApp := some "SpringBoard" }
  | .home => { d with status := DeviceStatus.connected, currentApp := some "SpringBoard" }
  | .restart => { d with status := DeviceStatus.offline }
  | .screenshot => { d with status := DeviceStatus.connected, lastScreenshot := some shotRef }
  | _ => { d with status := DeviceStatus.connected }

/-- Second registry update of a dispatch (`setDevices` after the settle
delay): every device matched by a target's id receives `applyUpdate`.
`shot` supplies the per-device screenshot oracle, indexed by device id. -/
def settlePhase (action : ScriptCommand) (argument : Option String)
    (shot : String → String) (targets : List IOSDevice)
    (devices : List IOSDevice) : List IOSDevice :=
  devices.map (fun d =>
    if isHit targets d then applyUpdate action argument (shot d.id) d else d)

/-- The `addLog('System', `Typed text on ...`, 'success')` calls issued
inside the second update's map for the `text` action, one per matched
device, in list order. -/
def textLogs (action : ScriptCommand) (targets : List IOSDevice)
    (devices : List IOSDevice) : List LogEntry :=
  if action = ScriptCommand.text then
    (devices.filter (fun d => isHit targets d)).map
      (fun d => { source := LogSource.system,
                  message := "Typed text on " ++ d.name,
                  type := LogType.success })
  else []

/-- The dispatcher `handleScriptExecution(action, argument, targetDevices)` of `App.tsx`
(lines 138–186): resolve targets; on an empty target set log an error and
return the error string with no registry change; otherwise log the
command, run the busy phase, await the 1500 ms settle delay (pure model:
no observable effect), run the settle phase (emitting the `text` logs),
log success and return the confirmation string. Returns the new state and
the result text. -/
def handleScriptExecution (action : ScriptCommand) (argument : Option String)
    (targetDevices : List String) (shot : String → String) (st : AppState) :
    AppState × String :=
  let targets := resolveTargets st.devices targetDevices
  if targets.length = 0 then
    (addLog st LogSource.system
      ("No valid targets found for action: " ++ action.toName) LogType.error,
     "Error: No online devices found for the command.")
  else
    let deviceNames := String.intercalate ", " (targets.map (fun d => d.name))
    let st1 := addLog st LogSource.system
      ("Executing: ./connect_ios_wireless.sh " ++ action.toName ++ " "
        ++ jsOr argument "" ++ " on [" ++ deviceNames ++ "]") LogType.command
    let st2 : AppState := { st1 with devices := busyPhase targets st1.devices }
    let st3 : AppState :=
      { st2 with devices := settlePhase action argument shot targets st2.devices,
                 logs := st2.logs ++ textLogs action targets st2.devices }
    let st4 := addLog st3 LogSource.system
      ("Successfully executed " ++ action.toName ++ " on "
        ++ toString targets.length ++ " devices.") LogType.success
    (st4, "Command " ++ action.toName ++ " executed successfully on " ++ deviceNames ++ ".")

/-- The session controller's tool-call glue (`onmessage`, line 297):
`args.targetDevices || ['all']` — `undefined`/`null` (modelled `none`)
defaults to `['all']`; any actual array, the empty one included, is
truthy in JavaScript and passes through unchanged. -/
def effectiveTargetDevices : Option (List String) → List String
  | none => ["all"]
  | some l => l

/-! ## Concrete fixtures -/

/-- A concrete registry for the round-trip scenario of the claims: three
online devices and one offline device (modelled on the shape of the
source's device records). -/
def exampleDevices : List IOSDevice :=
  [ { id := "dev_1", name := "iPhone 15 Pro", model := "iPhone16,1", osVersion := "iOS 17.4",
      ip := "192.168.1.101", status := DeviceStatus.connected, batteryLevel := 82,
      currentApp := some "SpringBoard", lastScreenshot := none },
    { id := "dev_2", name := "iPad Air 5", model := "iPad13,16", osVersion := "iPadOS 17.3",
      ip := "192.168.1.105", status := DeviceStatus.connected, batteryLevel := 45,
      currentApp := some "com.apple.safari", lastScreenshot := none },
    { id := "dev_3", name := "iPhone 12 Mini", model := "iPhone13,1", osVersion := "iOS 16.6",
      ip := "192.168.1.112", status := DeviceStatus.offline, batteryLevel := 0,
      currentApp := some "Unknown", lastScreenshot := none },
    { id := "dev_4", name := "iPhone 17", model := "iPhone17,1", osVersion := "iOS 18.0",
      ip := "192.168.1.120", status := DeviceStatus.busy, batteryLevel := 70,
      currentApp := some "SpringBoard", lastScreenshot := none } ]

/-! ## Audio scheduling model -/

/-- One inbound audio chunk as the `onmessage` handler sees it: the output
context's `currentTime` when the chunk is processed, and the decoded
buffer's `duration`. Times are modelled as rationals. -/
structure AudioChunk where
  ctxTime : ℚ
  duration : ℚ
deriving DecidableEq, Repr, Inhabited

/-- The scheduling of one inbound chunk (`onmessage`, lines 276–284):
`nextStartTime = max(nextStartTime, ctx.currentTime)`;
`source.start(nextStartTime)`; `nextStartTime += audioBuffer.duration`.
Returns the scheduled start time and the advanced cursor. -/
def scheduleChunk (cursor : ℚ) (c : AudioChunk) : ℚ × ℚ :=
  let start := max cursor c.ctxTime
  (start, start + c.duration)

/-- The start times assigned to a sequence of inbound chunks processed in
arrival order, threading the playback cursor. -/
def scheduleStarts (cursor : ℚ) : List AudioChunk → List ℚ
  | [] => []
  | c :: rest =>
    let p := scheduleChunk cursor c
    p.1 :: scheduleStarts p.2 rest

/-! ## Config parsing model -/

/-- JavaScript `s.includes(pat)` for a nonempty pattern: splitting on the
pattern yields more than one piece iff the pattern occurs. -/
def strContains (s pat : String) : Bool :=
  (s.splitOn pat).length != 1

/-- The display model/OS heuristic of `parseConfig` (lines 96–107):
defaults `('Unknown Device', 'iOS 17.0')`; an "iphone" name picks a model
by the "16"/"17" substring; an "ipad" name sets `('iPad Air',
'iPadOS 17.0')`. -/
def inferModelOS (name : String) : String × String :=
  if strContains name.toLower "iphone" then
    ((if strContains name "16" then "iPhone 15 Pro"
      else if strContains name "17" then "iPhone 16 Pro Max"
      else "iPhone"), "iOS 17.0")
  else if strContains name.toLower "ipad" then ("iPad Air", "iPadOS 17.0")
  else ("Unknown Device", "iOS 17.0")

/-- One iteration of the `lines.forEach` loop of `parseConfig`: skip a
line whose trimmed content is empty or starts with `#`; split the rest on
commas, trimming each part; with at least three parts, push a device
built from the first three (`name, udid, host`), status `connected`,
`currentApp: 'SpringBoard'`, and a battery level drawn from
`Math.random()` (modelled as an oracle over the running device count). -/
def parseConfigStep (battery : Nat → Nat) (acc : List IOSDevice)
    (line : String) : List IOSDevice :=
  let trimmed := line.trim
  if trimmed = "" then acc
  else if trimmed.startsWith "#" then acc
  else
    match (trimmed.splitOn ",").map (fun s => s.trim) with
    | name :: udid :: host :: _ =>
      acc ++ [{ id := udid, name := name, model := (inferModelOS name).1,
                osVersion := (inferModelOS name).2, ip := host,
                status := DeviceStatus.connected,
                batteryLevel := battery acc.length,
                currentApp := some "SpringBoard", lastScreenshot := none }]
    | _ => acc

/-- The device list produced by `parseConfig` (lines 82–122):
`content.split('\n')` folded through the per-line loop. -/
def parseConfigDevices (content : String) (battery : Nat → Nat) :
    List IOSDevice :=
  (content.splitOn "\n").foldl (parseConfigStep battery) []

/-- The full `parseConfig` state effect: replace the device registry with
the parsed devices and append the single success log entry. -/
def parseConfig (st : AppState) (content : String) (battery : Nat → Nat) :
    AppState :=
  let parsedDevices := parseConfigDevices content battery
  addLog { st with devices := parsedDevices } LogSource.system
    ("Configuration loaded. " ++ toString parsedDevices.length ++ " devices found.")
    LogType.success

/-- Modelled from the claim's wording, for comparison with the source's
`parseConfig`: a blank line or a line whose trimmed content begins with
`#` yields no device; any other line with at least three comma-separated
fields yields exactly one `(display name, identifier, network address)`
triple taken from the first three fields; a line with fewer than three
fields is skipped. -/
def lineTripleSpec (line : String) : Option (String × String × String) :=
  let t := line.trim
  if t = "" then none
  else if t.startsWith "#" then none
  else
    match (t.splitOn ",").map (fun s => s.trim) with
    | f1 :: f2 :: f3 :: _ => some (f1, f2, f3)
    | _ => none

/-- The combined per-device effect of a dispatch's two registry updates
on an id-hit device: the busy write followed by the settle update (an
unmatched device is left untouched by both). -/
def dispatchUpd (action : ScriptCommand) (argument : Option String)
    (shot : String → String) (targets : List IOSDevice) (d : IOSDevice) :
    IOSDevice :=
  if isHit targets d then
    applyUpdate action argument (shot d.id) { d with status := DeviceStatus.busy }
  else d

/-! ## C1: empty resolved target set -/

/-! ## C1: empty resolved target set -/

/-- C1: when the resolved target set of a dispatch is empty, the device
registry is completely unchanged, the result text is the
no-eligible-targets error string, and exactly one error-severity log entry
is appended; nothing else in the state changes. -/
theorem dispatch_empty_targets_no_mutation (action : ScriptCommand)
    (argument : Option String) (targetDevices : List String)
    (shot : String → String) (st : AppState)
    (h : resolveTargets st.devices targetDevices = []) :
    (handleScriptExecution action argument targetDevices shot st).1.devices = st.devices ∧
    (handleScriptExecution action argument targetDevices shot st).2 =
      "Error: No online devices found for the command." ∧
    (handleScriptExecution action argument targetDevices shot st).1.logs =
      st.logs ++ [{ source := LogSource.system,
                    message := "No valid targets found for action: " ++ action.toName,
                    type := LogType.error }] := by
  simp [handleScriptExecution, h, addLog]

/-- Witness for C1 at a concrete input: a registry whose only device is
offline resolves to no targets, and the dispatch leaves it unchanged. -/
theorem dispatch_empty_targets_no_mutation_witness :
    (handleScriptExecution ScriptCommand.home none ["dev_3"] (fun _ => "shot")
        { devices := [exampleDevices[2]], logs := [] }).1.devices =
      [exampleDevices[2]] :=
  (dispatch_empty_targets_no_mutation ScriptCommand.home none ["dev_3"] (fun _ => "shot")
    { devices := [exampleDevices[2]], logs := [] } (by decide)).1

/-! ## C2: target resolution -/

/-! ## C2: target resolution -/

/-- C2: a device is in the resolved target set iff it is a registered
device, its status is not offline, and either the sentinel `"all"` was
given or its identifier was named; hence offline devices are never
targets even when explicitly named, and unknown identifiers are silently
excluded. With three online devices and one offline device, `["all"]`
resolves to exactly the three online devices. -/
theorem resolve_targets_characterization (devices : List IOSDevice)
    (targetDevices : List String) :
    (∀ d : IOSDevice, d ∈ resolveTargets devices targetDevices ↔
      d ∈ devices ∧ d.status ≠ DeviceStatus.offline ∧
        ("all" ∈ targetDevices ∨ d.id ∈ targetDevices)) ∧
    (resolveTargets exampleDevices ["all"]).map (fun d => d.id) =
      ["dev_1", "dev_2", "dev_4"] := by
  constructor
  · intro d
    by_cases hall : "all" ∈ targetDevices
    · simp [resolveTargets, List.mem_filter, hall, List.contains]
    · simp [resolveTargets, List.mem_filter, hall, List.contains]
      tauto
  · decide

/-! ## C10: defaulting of absent targetDevices -/

/-! ## C10: defaulting of absent targetDevices -/

/-- C10: a tool call whose `targetDevices` is absent is dispatched with
the sentinel list `["all"]` and therefore resolves to every device whose
status is not offline, while an explicitly empty array passes through
unchanged and resolves to an empty target set. -/
theorem absent_target_devices_defaults_to_all (devices : List IOSDevice) :
    effectiveTargetDevices none = ["all"] ∧
    resolveTargets devices (effectiveTargetDevices none) =
      devices.filter (fun d => d.status != DeviceStatus.offline) ∧
    effectiveTargetDevices (some []) = [] ∧
    resolveTargets devices (effectiveTargetDevices (some [])) = [] := by
  refine ⟨rfl, ?_, rfl, ?_⟩
  · simp [effectiveTargetDevices, resolveTargets, List.contains]
  · simp [effectiveTargetDevices, resolveTargets, List.contains]

/-! ## C7: inbound audio scheduling -/

/-- The first scheduled start time is at least the initial cursor (it is
`max cursor ctxTime` of the first chunk). -/
theorem scheduleStarts_head_ge (cursor : ℚ) (chunks : List AudioChunk)
    (s : ℚ) (hs : (scheduleStarts cursor chunks)[0]? = some s) :
    cursor ≤ s := by
  cases chunks with
  | nil => simp [scheduleStarts] at hs
  | cons c rest =>
    simp [scheduleStarts, scheduleChunk] at hs
    exact hs ▸ le_max_left _ _

/-- Adjacent scheduled chunks never overlap: the next start time is at
least the previous start time plus the previous chunk's duration. -/
theorem scheduleStarts_adjacent (cursor : ℚ) (chunks : List AudioChunk)
    (i : Nat) (s1 s2 : ℚ) (c : AudioChunk)
    (h1 : (scheduleStarts cursor chunks)[i]? = some s1)
    (h2 : (scheduleStarts cursor chunks)[i + 1]? = some s2)
    (hc : chunks[i]? = some c) :
    s1 + c.duration ≤ s2 := by
  induction chunks generalizing cursor i with
  | nil => simp [scheduleStarts] at h1
  | cons c0 rest ih =>
    cases i with
    | zero =>
      simp only [scheduleStarts, scheduleChunk, List.getElem?_cons_zero,
        Option.some.injEq] at h1 hc
      simp only [scheduleStarts, scheduleChunk, List.getElem?_cons_succ] at h2
      subst h1 hc
      exact scheduleStarts_head_ge _ rest s2 h2
    | succ j =>
      simp only [scheduleStarts, scheduleChunk, List.getElem?_cons_succ] at h1 h2 hc
      exact ih _ j h1 h2 hc

/-- C7: each inbound chunk is scheduled at the maximum of the playback
clock and the cursor, the cursor then advances by the chunk's duration,
and consequently — for chunks whose durations are nonnegative, as decoded
audio buffers always are — consecutive start times satisfy both
`start(i) + duration(i) ≤ start(i+1)` (gapless, non-overlapping) and
`start(i) ≤ start(i+1)` (order-preserving, non-decreasing). -/
theorem audio_schedule_gapless_monotone (cursor : ℚ) (chunks : List AudioChunk)
    (hd : ∀ c ∈ chunks, 0 ≤ c.duration) :
    (∀ (cur : ℚ) (c : AudioChunk),
      scheduleChunk cur c = (max cur c.ctxTime, max cur c.ctxTime + c.duration)) ∧
    (∀ (i : Nat) (s1 s2 : ℚ) (c : AudioChunk),
      (scheduleStarts cursor chunks)[i]? = some s1 →
      (scheduleStarts cursor chunks)[i + 1]? = some s2 →
      chunks[i]? = some c →
      s1 + c.duration ≤ s2 ∧ s1 ≤ s2) := by
  refine ⟨fun cur c => rfl, fun i s1 s2 c h1 h2 hc => ?_⟩
  have hadj := scheduleStarts_adjacent cursor chunks i s1 s2 c h1 h2 hc
  have hmem : c ∈ chunks := by
    obtain ⟨hlt, heq⟩ := List.getElem?_eq_some.mp hc
    exact heq ▸ List.getElem_mem hlt
  exact ⟨hadj, le_trans (by linarith [hd c hmem]) hadj⟩

/-- Witness for C7: two chunks of durations 1 and 2 arriving at clock 0
are scheduled at starts 0 and 1, which are gapless and non-decreasing. -/
theorem audio_schedule_gapless_monotone_witness :
    (0 : ℚ) + (AudioChunk.mk 0 1).duration ≤ 1 ∧ (0 : ℚ) ≤ 1 :=
  (audio_schedule_gapless_monotone 0 [AudioChunk.mk 0 1, AudioChunk.mk 0 2]
      (by intro c hc; simp at hc; rcases hc with h | h <;> simp [h])).2
    0 0 1 (AudioChunk.mk 0 1)
    (by norm_num [scheduleStarts, scheduleChunk])
    (by norm_num [scheduleStarts, scheduleChunk])
    rfl

/-! ## C8: device-config parsing -/

/-- The per-line loop refines the claim's per-line contract: projecting
each parsed device to its `(name, identifier, address)` triple yields
exactly the `filterMap` of the per-line specification, for any prefix of
already-parsed devices. -/
theorem parseConfigStep_foldl_proj (battery : Nat → Nat)
    (lines : List String) (acc : List IOSDevice) :
    (lines.foldl (parseConfigStep battery) acc).map (fun d => (d.name, d.id, d.ip)) =
      acc.map (fun d => (d.name, d.id, d.ip)) ++ lines.filterMap lineTripleSpec := by
  induction lines generalizing acc with
  | nil => simp
  | cons l ls ih =>
    rw [List.foldl_cons, List.filterMap_cons, ih]
    unfold parseConfigStep lineTripleSpec
    by_cases h1 : l.trim = ""
    · simp [h1]
    · by_cases h2 : l.trim.startsWith "#"
      · simp [h1, h2]
      · simp only [h1, h2, if_false, ite_false]
        cases hf : (l.trim.splitOn ",").map (fun s => s.trim) with
        | nil => simp
        | cons f1 r1 =>
          cases r1 with
          | nil => simp
          | cons f2 r2 =>
            cases r2 with
            | nil => simp
            | cons f3 r3 => simp

/-- C8: for every configuration text, blank lines and `#`-comment lines
produce no device, every other line with at least three comma-separated
fields produces exactly one device whose display name, identifier and
network address are the first, second and third fields, and malformed
data lines are skipped — producing neither a device nor an error log
entry (the parse appends exactly its one success entry). -/
theorem parse_config_line_contract (st : AppState) (content : String)
    (battery : Nat → Nat) :
    (parseConfig st content battery).devices.map (fun d => (d.name, d.id, d.ip)) =
      (content.splitOn "\n").filterMap lineTripleSpec ∧
    (parseConfig st content battery).devices = parseConfigDevices content battery ∧
    (parseConfig st content battery).logs =
      st.logs ++ [{ source := LogSource.system,
                    message := "Configuration loaded. "
                      ++ toString (parseConfigDevices content battery).length
                      ++ " devices found.",
                    type := LogType.success }] := by
  refine ⟨?_, rfl, rfl⟩
  have h := parseConfigStep_foldl_proj battery (content.splitOn "\n") []
  simpa [parseConfig, addLog, parseConfigDevices] using h

/-! ## C9: the activity log is append-only -/

/-- C9: the log is append-only — `addLog` (used for all session-lifecycle
logging) appends exactly one entry at the end; a dispatch only ever
appends entries after the existing log, preserving every existing entry
and their order; and a config parse appends exactly one entry. No
operation mutates or removes an existing entry. -/
theorem activity_log_append_only :
    (∀ (st : AppState) (source : LogSource) (message : String) (type : LogType),
      (addLog st source message type).logs =
        st.logs ++ [{ source := source, message := message, type := type }]) ∧
    (∀ (action : ScriptCommand) (argument : Option String)
        (targetDevices : List String) (shot : String → String) (st : AppState),
      ∃ appended : List LogEntry,
        (handleScriptExecution action argument targetDevices shot st).1.logs =
          st.logs ++ appended) ∧
    (∀ (st : AppState) (content : String) (battery : Nat → Nat),
      ∃ e : LogEntry, (parseConfig st content battery).logs = st.logs ++ [e]) := by
  refine ⟨fun st source message type => rfl, fun action argument targetDevices shot st => ?_, fun st content battery => ⟨_, rfl⟩⟩
  unfold handleScriptExecution
  by_cases h : (resolveTargets st.devices targetDevices).length = 0
  · refine ⟨[{ source := LogSource.system,
               message := "No valid targets found for action: " ++ action.toName,
               type := LogType.error }], ?_⟩
    simp [h, addLog]
  · refine ⟨[{ source := LogSource.system,
               message := "Executing: ./connect_ios_wireless.sh " ++ action.toName ++ " "
                 ++ jsOr argument "" ++ " on ["
                 ++ String.intercalate ", "
                      ((resolveTargets st.devices targetDevices).map (fun d => d.name)) ++ "]",
               type := LogType.command }]
            ++ textLogs action (resolveTargets st.devices targetDevices)
                 (busyPhase (resolveTargets st.devices targetDevices) st.devices)
            ++ [{ source := LogSource.system,
                  message := "Successfully executed " ++ action.toName ++ " on "
                    ++ toString (resolveTargets st.devices targetDevices).length ++ " devices.",
                  type := LogType.success }], ?_⟩
    simp [h, addLog]


/-! ## Dispatch helper lemmas -/

/-- Membership in the resolved target set, unfolded. -/
theorem mem_resolveTargets_iff (devices : List IOSDevice)
    (targetDevices : List String) (d : IOSDevice) :
    d ∈ resolveTargets devices targetDevices ↔
      d ∈ devices ∧ d.status ≠ DeviceStatus.offline ∧
        ("all" ∈ targetDevices ∨ d.id ∈ targetDevices) := by
  by_cases hall : "all" ∈ targetDevices
  · simp [resolveTargets, List.mem_filter, hall, List.contains]
  · simp [resolveTargets, List.mem_filter, hall, List.contains]
    tauto

/-- Characterization of `isHit` as an existential over the target list. -/
theorem isHit_iff (targets : List IOSDevice) (d : IOSDevice) :
    isHit targets d = true ↔ ∃ t ∈ targets, t.id = d.id := by
  simp [isHit, List.any_eq_true]

/-- A device of the target set is id-hit by it. -/
theorem isHit_of_mem (targets : List IOSDevice) (d : IOSDevice)
    (h : d ∈ targets) : isHit targets d = true :=
  (isHit_iff targets d).mpr ⟨d, h, rfl⟩

/-- No action changes a device's identifier. -/
theorem applyUpdate_id (action : ScriptCommand) (argument : Option String)
    (shotRef : String) (d : IOSDevice) :
    (applyUpdate action argument shotRef d).id = d.id := by
  cases action <;> rfl

/-- The settled status of a targeted device: `offline` for `restart`,
`connected` for every other action. -/
theorem applyUpdate_status (action : ScriptCommand) (argument : Option String)
    (shotRef : String) (d : IOSDevice) :
    (applyUpdate action argument shotRef d).status =
      (if action = ScriptCommand.restart then DeviceStatus.offline
       else DeviceStatus.connected) := by
  cases action <;> rfl

/-- The combined dispatch update preserves the identifier. -/
theorem dispatchUpd_id (action : ScriptCommand) (argument : Option String)
    (shot : String → String) (targets : List IOSDevice) (d : IOSDevice) :
    (dispatchUpd action argument shot targets d).id = d.id := by
  unfold dispatchUpd
  by_cases h : isHit targets d = true
  · simp [h, applyUpdate_id]
  · simp [h]

/-- An offline device is never in a resolved target set. -/
theorem not_mem_resolveTargets_of_offline (devices : List IOSDevice)
    (targetDevices : List String) (d : IOSDevice)
    (h : d.status = DeviceStatus.offline) :
    d ∉ resolveTargets devices targetDevices := by
  intro hmem
  exact ((mem_resolveTargets_iff devices targetDevices d).mp hmem).2.1 h

/-- A dispatch whose resolved target set is empty leaves the registry
unchanged. -/
theorem dispatch_devices_of_empty (action : ScriptCommand)
    (argument : Option String) (targetDevices : List String)
    (shot : String → String) (st : AppState)
    (h : (resolveTargets st.devices targetDevices).length = 0) :
    (handleScriptExecution action argument targetDevices shot st).1.devices =
      st.devices := by
  simp [handleScriptExecution, h, addLog]

/-- The second registry update composed with the first is the pointwise
combined update: both updates match by identifier against the same
pre-resolved target set, and the busy write does not change identifiers. -/
theorem settle_busy_comp (action : ScriptCommand) (argument : Option String)
    (shot : String → String) (targets : List IOSDevice)
    (devices : List IOSDevice) :
    settlePhase action argument shot targets (busyPhase targets devices) =
      devices.map (dispatchUpd action argument shot targets) := by
  unfold settlePhase busyPhase
  rw [List.map_map]
  apply List.map_congr_left
  intro d _
  simp only [Function.comp]
  by_cases h : isHit targets d = true
  · simp only [h, if_true, dispatchUpd]
    have hb : isHit targets { d with status := DeviceStatus.busy } = isHit targets d := rfl
    simp [hb, h]
  · simp only [Bool.not_eq_true] at h
    simp [dispatchUpd, h]

/-- Master lemma: with a non-empty resolved target set, the registry
after a dispatch is the pointwise combined update of the registry
before it. -/
theorem dispatch_devices_eq (action : ScriptCommand) (argument : Option String)
    (targetDevices : List String) (shot : String → String) (st : AppState)
    (h : ¬ (resolveTargets st.devices targetDevices).length = 0) :
    (handleScriptExecution action argument targetDevices shot st).1.devices =
      st.devices.map
        (dispatchUpd action argument shot (resolveTargets st.devices targetDevices)) := by
  unfold handleScriptExecution
  simp only [h, if_false, addLog]
  exact settle_busy_comp action argument shot _ st.devices

/-- Dispatch updates preserve the identifier sequence of the registry. -/
theorem ids_map_dispatchUpd (action : ScriptCommand) (argument : Option String)
    (shot : String → String) (targets : List IOSDevice)
    (devices : List IOSDevice) :
    (devices.map (dispatchUpd action argument shot targets)).map (fun d => d.id) =
      devices.map (fun d => d.id) := by
  rw [List.map_map]
  apply List.map_congr_left
  intro d _
  simp [Function.comp, dispatchUpd_id]

/-- Under the registry invariant that identifiers are unique, a registered
device outside the resolved target set is not id-hit by it either. -/
theorem not_isHit_of_not_mem (devices : List IOSDevice)
    (targetDevices : List String)
    (hnodup : (devices.map (fun d => d.id)).Nodup)
    (d : IOSDevice) (hd : d ∈ devices)
    (hnot : d ∉ resolveTargets devices targetDevices) :
    isHit (resolveTargets devices targetDevices) d = false := by
  by_contra hc
  rw [Bool.not_eq_false, isHit_iff] at hc
  obtain ⟨t, htmem, htid⟩ := hc
  have htdev : t ∈ devices := ((mem_resolveTargets_iff _ _ t).mp htmem).1
  have hteq : t = d := List.inj_on_of_nodup_map hnodup htdev hd htid
  exact hnot (hteq ▸ htmem)

/-! ## C4: two-phase transition and frame -/

/-- C4: with a non-empty target set the dispatch performs exactly two
whole-set registry updates — first every targeted device's entry becomes
its busy record, then (after the settle delay) the settle update is
applied on top of the busy state, leaving each targeted device at its
settled status (`offline` for `restart`, `connected` otherwise) — while
every device outside the resolved target set is untouched by both
updates, keeping its status and every other field. The identifier-
uniqueness invariant of the registry (§3 of the spec) is assumed. -/
theorem dispatch_two_phase_frame (action : ScriptCommand)
    (argument : Option String) (targetDevices : List String)
    (shot : String → String) (st : AppState)
    (hnodup : (st.devices.map (fun d => d.id)).Nodup)
    (hne : ¬ (resolveTargets st.devices targetDevices).length = 0) :
    (handleScriptExecution action argument targetDevices shot st).1.devices =
      settlePhase action argument shot (resolveTargets st.devices targetDevices)
        (busyPhase (resolveTargets st.devices targetDevices) st.devices) ∧
    (∀ (i : Nat) (d : IOSDevice), st.devices[i]? = some d →
      d ∈ resolveTargets st.devices targetDevices →
      (busyPhase (resolveTargets st.devices targetDevices) st.devices)[i]? =
        some { d with status := DeviceStatus.busy } ∧
      ∃ d2, ((handleScriptExecution action argument targetDevices shot st).1.devices)[i]? =
          some d2 ∧
        d2.status = (if action = ScriptCommand.restart then DeviceStatus.offline
                     else DeviceStatus.connected)) ∧
    (∀ (i : Nat) (d : IOSDevice), st.devices[i]? = some d →
      d ∉ resolveTargets st.devices targetDevices →
      (busyPhase (resolveTargets st.devices targetDevices) st.devices)[i]? = some d ∧
      ((handleScriptExecution action argument targetDevices shot st).1.devices)[i]? =
        some d) := by
  refine ⟨?_, ?_, ?_⟩
  · unfold handleScriptExecution
    simp only [hne, if_false]
    rfl
  · intro i d hd hmem
    have hhit : isHit (resolveTargets st.devices targetDevices) d = true :=
      isHit_of_mem _ d hmem
    constructor
    · unfold busyPhase
      rw [List.getElem?_map, hd]
      simp [hhit]
    · rw [dispatch_devices_eq action argument targetDevices shot st hne,
        List.getElem?_map, hd]
      refine ⟨_, rfl, ?_⟩
      simp only [dispatchUpd, hhit, if_true]
      exact applyUpdate_status action argument _ _
  · intro i d hd hnot
    have hdev : d ∈ st.devices := List.mem_iff_getElem?.mpr ⟨i, hd⟩
    have hhit : isHit (resolveTargets st.devices targetDevices) d = false :=
      not_isHit_of_not_mem st.devices targetDevices hnodup d hdev hnot
    constructor
    · unfold busyPhase
      rw [List.getElem?_map, hd]
      simp [hhit]
    · rw [dispatch_devices_eq action argument targetDevices shot st hne,
        List.getElem?_map, hd]
      simp [dispatchUpd, hhit]

/-- Witness for C4 at a concrete registry: dispatching `go-home` on
`["all"]` over the example registry leaves the offline `dev_3` (index 2,
outside the target set) untouched by both updates, and moves the
connected `dev_1` (index 0) through busy to connected. -/
theorem dispatch_two_phase_frame_witness :
    ((busyPhase (resolveTargets exampleDevices ["all"]) exampleDevices)[2]? =
        some (exampleDevices[2]) ∧
      ((handleScriptExecution ScriptCommand.home none ["all"] (fun _ => "s")
          { devices := exampleDevices, logs := [] }).1.devices)[2]? =
        some (exampleDevices[2])) ∧
    ((busyPhase (resolveTargets exampleDevices ["all"]) exampleDevices)[0]? =
        some { exampleDevices[0] with status := DeviceStatus.busy } ∧
      ∃ d2, ((handleScriptExecution ScriptCommand.home none ["all"] (fun _ => "s")
            { devices := exampleDevices, logs := [] }).1.devices)[0]? = some d2 ∧
        d2.status = (if ScriptCommand.home = ScriptCommand.restart
                     then DeviceStatus.offline else DeviceStatus.connected)) :=
  ⟨(dispatch_two_phase_frame ScriptCommand.home none ["all"] (fun _ => "s")
      { devices := exampleDevices, logs := [] } (by decide) (by decide)).2.2
      2 (exampleDevices[2]) (by decide) (by decide),
   (dispatch_two_phase_frame ScriptCommand.home none ["all"] (fun _ => "s")
      { devices := exampleDevices, logs := [] } (by decide) (by decide)).2.1
      0 (exampleDevices[0]) (by decide) (by decide)⟩

/-! ## C3: action-specific field updates -/

/-- C3 as literally stated fails for `launch-app`: with an argument that
is present but empty, the source's `argument || 'App'` (JavaScript
truthiness) sets the targeted device's active app to the placeholder
"App", not to the given empty argument. Concretely: dispatching
`launch-app` with argument `""` at a single connected device ends with
active app `"App"`, which differs from the argument `""`. -/
theorem launch_empty_argument_counterexample :
    ((handleScriptExecution ScriptCommand.launch (some "") ["dev_1"] (fun _ => "s")
        { devices := [exampleDevices[0]], logs := [] }).1.devices.map
        (fun d => d.currentApp)) = [some "App"] ∧
    (some "App" : Option String) ≠ some "" := by
  exact ⟨by decide, by decide⟩

/-- C3 (amended: for `launch-app` the active app becomes the argument, or
the generic placeholder when the argument is absent **or empty**): with a
non-empty target set, after the settle delay every targeted device ends
at status `connected` — except `restart`, which ends `offline` with no
other field change — and receives its action-specific update: `open-url`
sets the active app to "Safari"; `launch-app` sets it to the argument or
the placeholder; `kill-app` and `go-home` set it to the home-screen
sentinel "SpringBoard"; `screenshot` sets the freshly generated
screen-image reference; `send-text` and the reserved actions `install`,
`uninstall`, `list-apps`, `quit` change no device field beyond the
busy-to-connected cycle. -/
theorem dispatch_action_field_updates (action : ScriptCommand)
    (argument : Option String) (targetDevices : List String)
    (shot : String → String) (st : AppState)
    (i : Nat) (d : IOSDevice)
    (hd : st.devices[i]? = some d)
    (hmem : d ∈ resolveTargets st.devices targetDevices) :
    ∃ d2, ((handleScriptExecution action argument targetDevices shot st).1.devices)[i]? =
        some d2 ∧
      (action ≠ ScriptCommand.restart → d2.status = DeviceStatus.connected) ∧
      (action = ScriptCommand.restart →
        d2.status = DeviceStatus.offline ∧ d2.currentApp = d.currentApp) ∧
      (action = ScriptCommand.url → d2.currentApp = some "Safari") ∧
      (action = ScriptCommand.launch → d2.currentApp = some (jsOr argument "App")) ∧
      ((action = ScriptCommand.kill ∨ action = ScriptCommand.home) →
        d2.currentApp = some "SpringBoard") ∧
      (action = ScriptCommand.screenshot →
        d2.lastScreenshot = some (shot d.id) ∧ d2.currentApp = d.currentApp) ∧
      ((action = ScriptCommand.text ∨ action = ScriptCommand.install ∨
          action = ScriptCommand.uninstall ∨ action = ScriptCommand.listApps ∨
          action = ScriptCommand.quit) →
        d2.currentApp = d.currentApp ∧ d2.lastScreenshot = d.lastScreenshot) ∧
      (action ≠ ScriptCommand.screenshot → d2.lastScreenshot = d.lastScreenshot) := by
  have hne : ¬ (resolveTargets st.devices targetDevices).length = 0 := by
    intro h0
    rw [List.length_eq_zero] at h0
    rw [h0] at hmem
    simp at hmem
  have hhit : isHit (resolveTargets st.devices targetDevices) d = true :=
    isHit_of_mem _ d hmem
  rw [dispatch_devices_eq action argument targetDevices shot st hne,
    List.getElem?_map, hd]
  refine ⟨_, rfl, ?_⟩
  simp only [Option.map_some, dispatchUpd, hhit, if_true]
  cases action <;> simp [applyUpdate]

/-- Witness for the amended C3: dispatching `launch-app` with argument
"Maps" on `["all"]` over the example registry ends with `dev_1` running
"Maps". -/
theorem dispatch_action_field_updates_witness :
    ∃ d2, ((handleScriptExecution ScriptCommand.launch (some "Maps") ["all"]
        (fun _ => "s") { devices := exampleDevices, logs := [] }).1.devices)[0]? =
        some d2 ∧
      (ScriptCommand.launch ≠ ScriptCommand.restart → d2.status = DeviceStatus.connected) ∧
      (ScriptCommand.launch = ScriptCommand.restart →
        d2.status = DeviceStatus.offline ∧ d2.currentApp = (exampleDevices[0]).currentApp) ∧
      (ScriptCommand.launch = ScriptCommand.url → d2.currentApp = some "Safari") ∧
      (ScriptCommand.launch = ScriptCommand.launch →
        d2.currentApp = some (jsOr (some "Maps") "App")) ∧
      ((ScriptCommand.launch = ScriptCommand.kill ∨ ScriptCommand.launch = ScriptCommand.home) →
        d2.currentApp = some "SpringBoard") ∧
      (ScriptCommand.launch = ScriptCommand.screenshot →
        d2.lastScreenshot = some ((fun _ => "s") (exampleDevices[0]).id) ∧
          d2.currentApp = (exampleDevices[0]).currentApp) ∧
      ((ScriptCommand.launch = ScriptCommand.text ∨
          ScriptCommand.launch = ScriptCommand.install ∨
          ScriptCommand.launch = ScriptCommand.uninstall ∨
          ScriptCommand.launch = ScriptCommand.listApps ∨
          ScriptCommand.launch = ScriptCommand.quit) →
        d2.currentApp = (exampleDevices[0]).currentApp ∧
          d2.lastScreenshot = (exampleDevices[0]).lastScreenshot) ∧
      (ScriptCommand.launch ≠ ScriptCommand.screenshot →
        d2.lastScreenshot = (exampleDevices[0]).lastScreenshot) :=
  dispatch_action_field_updates ScriptCommand.launch (some "Maps") ["all"]
    (fun _ => "s") { devices := exampleDevices, logs := [] } 0 (exampleDevices[0])
    (by decide) (by decide)

/-! ## C5: go-home is idempotent on the active app -/

/-- Any device id-hit by the target set resolved after a `go-home`
dispatch was already id-hit by the first dispatch's target set, so its
active app is already the home-screen sentinel. -/
theorem home_hit_already_home (argument : Option String)
    (targetDevices : List String) (shot : String → String)
    (devices : List IOSDevice) (d1 : IOSDevice)
    (hd1 : d1 ∈ devices.map (dispatchUpd ScriptCommand.home argument shot
      (resolveTargets devices targetDevices)))
    (hhit : isHit (resolveTargets
      (devices.map (dispatchUpd ScriptCommand.home argument shot
        (resolveTargets devices targetDevices))) targetDevices) d1 = true) :
    d1.currentApp = some "SpringBoard" := by
  obtain ⟨t2, ht2mem, ht2id⟩ := (isHit_iff _ d1).mp hhit
  have ht2 := (mem_resolveTargets_iff _ targetDevices t2).mp ht2mem
  obtain ⟨t0, ht0mem, ht0eq⟩ := List.mem_map.mp ht2.1
  have hid0 : t2.id = t0.id := by
    rw [← ht0eq]
    exact dispatchUpd_id ScriptCommand.home argument shot _ t0
  obtain ⟨d0, hd0mem, hd0eq⟩ := List.mem_map.mp hd1
  have hidd : d1.id = d0.id := by
    rw [← hd0eq]
    exact dispatchUpd_id ScriptCommand.home argument shot _ d0
  have hd0hit : isHit (resolveTargets devices targetDevices) d0 = true := by
    rw [isHit_iff]
    by_cases h0 : isHit (resolveTargets devices targetDevices) t0 = true
    · obtain ⟨s, hs, hsid⟩ := (isHit_iff _ t0).mp h0
      refine ⟨s, hs, ?_⟩
      rw [hsid, ← hid0, ht2id, hidd]
    · have ht2t0 : t2 = t0 := by
        rw [← ht0eq]
        simp only [Bool.not_eq_true] at h0
        simp [dispatchUpd, h0]
      have ht0T1 : t0 ∈ resolveTargets devices targetDevices := by
        rw [mem_resolveTargets_iff]
        exact ⟨ht0mem, ht2t0 ▸ ht2.2.1, by
          have := ht2.2.2
          rw [ht2t0] at this
          exact this⟩
      refine ⟨t0, ht0T1, ?_⟩
      rw [← hid0, ht2id, hidd]
  rw [← hd0eq]
  simp [dispatchUpd, hd0hit, applyUpdate]

/-- C5: dispatching `go-home` twice in sequence with the same target list
yields, for every device (targeted ones included), the same final
active-app value as dispatching it once. -/
theorem go_home_idempotent_on_active_app (argument : Option String)
    (targetDevices : List String) (shot : String → String) (st : AppState) :
    (handleScriptExecution ScriptCommand.home argument targetDevices shot
        (handleScriptExecution ScriptCommand.home argument targetDevices
          shot st).1).1.devices.map (fun d => d.currentApp) =
      (handleScriptExecution ScriptCommand.home argument targetDevices
        shot st).1.devices.map (fun d => d.currentApp) := by
  by_cases h1 : (resolveTargets st.devices targetDevices).length = 0
  · have e1 : (handleScriptExecution ScriptCommand.home argument targetDevices
        shot st).1.devices = st.devices :=
      dispatch_devices_of_empty _ _ _ _ _ h1
    have h2 : (resolveTargets (handleScriptExecution ScriptCommand.home argument
        targetDevices shot st).1.devices targetDevices).length = 0 := by
      rw [e1]; exact h1
    rw [dispatch_devices_of_empty _ _ _ _ _ h2]
  · have e1 : (handleScriptExecution ScriptCommand.home argument targetDevices
        shot st).1.devices =
        st.devices.map (dispatchUpd ScriptCommand.home argument shot
          (resolveTargets st.devices targetDevices)) :=
      dispatch_devices_eq _ _ _ _ _ h1
    have h2 : ¬ (resolveTargets (handleScriptExecution ScriptCommand.home argument
        targetDevices shot st).1.devices targetDevices).length = 0 := by
      intro hlen
      rw [List.length_eq_zero] at hlen
      obtain ⟨t0, ht0⟩ := List.exists_mem_of_length_pos (Nat.pos_of_ne_zero h1)
      have ht0p := (mem_resolveTargets_iff st.devices targetDevices t0).mp ht0
      have hhit : isHit (resolveTargets st.devices targetDevices) t0 = true :=
        isHit_of_mem _ t0 ht0
      have hmem2 : dispatchUpd ScriptCommand.home argument shot
          (resolveTargets st.devices targetDevices) t0 ∈
          resolveTargets (handleScriptExecution ScriptCommand.home argument
            targetDevices shot st).1.devices targetDevices := by
        rw [mem_resolveTargets_iff]
        refine ⟨?_, ?_, ?_⟩
        · rw [e1]
          exact List.mem_map_of_mem _ ht0p.1
        · simp [dispatchUpd, hhit, applyUpdate]
        · rw [dispatchUpd_id]
          exact ht0p.2.2
      rw [hlen] at hmem2
      simp at hmem2
    have e2 : (handleScriptExecution ScriptCommand.home argument targetDevices shot
        (handleScriptExecution ScriptCommand.home argument targetDevices
          shot st).1).1.devices =
        (handleScriptExecution ScriptCommand.home argument targetDevices
          shot st).1.devices.map (dispatchUpd ScriptCommand.home argument shot
            (resolveTargets (handleScriptExecution ScriptCommand.home argument
              targetDevices shot st).1.devices targetDevices)) :=
      dispatch_devices_eq _ _ _ _ _ h2
    rw [e2, List.map_map]
    apply List.map_congr_left
    intro d1 hd1
    simp only [Function.comp]
    by_cases hhit : isHit (resolveTargets (handleScriptExecution ScriptCommand.home
        argument targetDevices shot st).1.devices targetDevices) d1 = true
    · have hd1m : d1 ∈ st.devices.map (dispatchUpd ScriptCommand.home argument shot
          (resolveTargets st.devices targetDevices)) := by
        rw [← e1]; exact hd1
      have hhitm : isHit (resolveTargets (st.devices.map (dispatchUpd ScriptCommand.home
          argument shot (resolveTargets st.devices targetDevices)))
          targetDevices) d1 = true := by
        rw [← e1]; exact hhit
      have happ : d1.currentApp = some "SpringBoard" :=
        home_hit_already_home argument targetDevices shot st.devices d1 hd1m hhitm
      simp [dispatchUpd, hhit, applyUpdate, happ]
    · simp only [Bool.not_eq_true] at hhit
      simp [dispatchUpd, hhit]

/-! ## C6: restart is terminal for the cycle -/

/-- An offline device (unique ids assumed) survives an "all devices"
dispatch untouched: it is excluded from the target set, keeps its offline
status, and is still excluded afterwards. -/
theorem offline_persists_under_all_dispatch (action2 : ScriptCommand)
    (argument2 : Option String) (shot2 : String → String) (st1 : AppState)
    (hnodup1 : (st1.devices.map (fun d => d.id)).Nodup)
    (i : Nat) (d1 : IOSDevice) (hd1 : st1.devices[i]? = some d1)
    (hoff : d1.status = DeviceStatus.offline) :
    ∃ d2, ((handleScriptExecution action2 argument2 ["all"] shot2 st1).1.devices)[i]? =
        some d2 ∧
      d2.status = DeviceStatus.offline ∧
      d2 ∉ resolveTargets
        (handleScriptExecution action2 argument2 ["all"] shot2 st1).1.devices ["all"] := by
  have hd1mem : d1 ∈ st1.devices := List.mem_iff_getElem?.mpr ⟨i, hd1⟩
  have hnot : d1 ∉ resolveTargets st1.devices ["all"] :=
    not_mem_resolveTargets_of_offline _ _ _ hoff
  have hhit2 : isHit (resolveTargets st1.devices ["all"]) d1 = false :=
    not_isHit_of_not_mem _ _ hnodup1 d1 hd1mem hnot
  by_cases hlen : (resolveTargets st1.devices ["all"]).length = 0
  · refine ⟨d1, ?_, hoff, not_mem_resolveTargets_of_offline _ _ _ hoff⟩
    rw [dispatch_devices_of_empty _ _ _ _ _ hlen]
    exact hd1
  · refine ⟨d1, ?_, hoff, not_mem_resolveTargets_of_offline _ _ _ hoff⟩
    rw [dispatch_devices_eq _ _ _ _ _ hlen, List.getElem?_map, hd1]
    simp [dispatchUpd, hhit2]

/-- C6: after a `restart` dispatch that targeted a device, that device's
status is `offline`, it is excluded from the target set of any subsequent
`["all"]` dispatch, and such a dispatch leaves it offline and still
excluded (i.e. until its status is changed from outside). The identifier-
uniqueness invariant of the registry (§3 of the spec) is assumed. -/
theorem restart_terminal_excludes_from_all (argument : Option String)
    (targetDevices : List String) (shot : String → String) (st : AppState)
    (hnodup : (st.devices.map (fun d => d.id)).Nodup)
    (i : Nat) (d : IOSDevice)
    (hd : st.devices[i]? = some d)
    (hmem : d ∈ resolveTargets st.devices targetDevices) :
    ∃ d1, ((handleScriptExecution ScriptCommand.restart argument targetDevices shot
        st).1.devices)[i]? = some d1 ∧
      d1.status = DeviceStatus.offline ∧
      d1 ∉ resolveTargets (handleScriptExecution ScriptCommand.restart argument
        targetDevices shot st).1.devices ["all"] ∧
      ∀ (action2 : ScriptCommand) (argument2 : Option String)
          (shot2 : String → String),
        ∃ d2, ((handleScriptExecution action2 argument2 ["all"] shot2
            (handleScriptExecution ScriptCommand.restart argument targetDevices shot
              st).1).1.devices)[i]? = some d2 ∧
          d2.status = DeviceStatus.offline ∧
          d2 ∉ resolveTargets (handleScriptExecution action2 argument2 ["all"] shot2
            (handleScriptExecution ScriptCommand.restart argument targetDevices shot
              st).1).1.devices ["all"] := by
  have hne : ¬ (resolveTargets st.devices targetDevices).length = 0 := by
    intro h0
    rw [List.length_eq_zero] at h0
    rw [h0] at hmem
    simp at hmem
  have hhit : isHit (resolveTargets st.devices targetDevices) d = true :=
    isHit_of_mem _ d hmem
  have e1 := dispatch_devices_eq ScriptCommand.restart argument targetDevices shot st hne
  have hd1 : ((handleScriptExecution ScriptCommand.restart argument targetDevices shot
      st).1.devices)[i]? = some (dispatchUpd ScriptCommand.restart argument shot
        (resolveTargets st.devices targetDevices) d) := by
    rw [e1, List.getElem?_map, hd]
    rfl
  have hoff : (dispatchUpd ScriptCommand.restart argument shot
      (resolveTargets st.devices targetDevices) d).status = DeviceStatus.offline := by
    simp [dispatchUpd, hhit, applyUpdate]
  have hnodup1 : ((handleScriptExecution ScriptCommand.restart argument targetDevices
      shot st).1.devices.map (fun x => x.id)).Nodup := by
    rw [e1, ids_map_dispatchUpd]
    exact hnodup
  refine ⟨_, hd1, hoff, not_mem_resolveTargets_of_offline _ _ _ hoff, ?_⟩
  intro action2 argument2 shot2
  exact offline_persists_under_all_dispatch action2 argument2 shot2 _ hnodup1 i _ hd1 hoff

/-- Witness for C6: restarting `dev_1` in the example registry leaves it
offline, excluded from the next `["all"]` dispatch, and still offline and
excluded after that dispatch runs `go-home` on all devices. -/
theorem restart_terminal_excludes_from_all_witness :
    ∃ d1, ((handleScriptExecution ScriptCommand.restart none ["dev_1"] (fun _ => "s")
        { devices := exampleDevices, logs := [] }).1.devices)[0]? = some d1 ∧
      d1.status = DeviceStatus.offline ∧
      d1 ∉ resolveTargets (handleScriptExecution ScriptCommand.restart none ["dev_1"]
        (fun _ => "s") { devices := exampleDevices, logs := [] }).1.devices ["all"] ∧
      ∀ (action2 : ScriptCommand) (argument2 : Option String)
          (shot2 : String → String),
        ∃ d2, ((handleScriptExecution action2 argument2 ["all"] shot2
            (handleScriptExecution ScriptCommand.restart none ["dev_1"] (fun _ => "s")
              { devices := exampleDevices, logs := [] }).1).1.devices)[0]? = some d2 ∧
          d2.status = DeviceStatus.offline ∧
          d2 ∉ resolveTargets (handleScriptExecution action2 argument2 ["all"] shot2
            (handleScriptExecution ScriptCommand.restart none ["dev_1"] (fun _ => "s")
              { devices := exampleDevices, logs := [] }).1).1.devices ["all"] :=
  restart_terminal_excludes_from_all none ["dev_1"] (fun _ => "s")
    { devices := exampleDevices, logs := [] } (by decide) 0 (exampleDevices[0])
    (by decide) (by decide)
